import Mathlib

/-!
Shallow embedding of src/main.py (Urdu to Speech AI backend).

The repository is a FastAPI proxy around an external TTS provider.  The
embedding below translates the three functions the claims are about:

* fetch_binary_url      (src/main.py lines 148-155)
* call_orator_tts_bytes (src/main.py lines 158-240)
* api_synthesize        (src/main.py lines 243-261)
* health                (src/main.py lines 265-268)

Network interaction is modelled by oracles: the provider response to the
primary POST is a field of the environment, and the secondary GET is a
function from URL to a fetch result.  Every run additionally produces the
list of outbound network calls it made, so that claims about "no outbound
call" and "exactly one secondary GET" are statable.

Bytes are lists of Nat (each < 256 in practice); JSON values are a small
inductive mirroring what json.loads / resp.json() can produce.  The field
Response.json models the value of the local variable j in the source after
the try/except around resp.json(): none means parsing raised.
-/

/-- JSON values as produced by Python json parsing.  Numbers are modelled as
integers, which covers every value the claims touch; objects are ordered
association lists with distinct keys in any value produced by json.loads. -/
inductive Json where
  | null
  | bool (b : Bool)
  | num (n : Int)
  | str (s : String)
  | arr (elems : List Json)
  | obj (fields : List (String × Json))

/-- Dictionary lookup j[key] / j.get(key): Python dicts from json.loads have
unique keys, so first-match lookup is the dict semantics. -/
def jlookup : List (String × Json) → String → Option Json
  | [], _ => none
  | (k, v) :: rest, key => if k = key then some v else jlookup rest key

/-- Python truthiness of a JSON value, used by the source in "if not text". -/
def jsonTruthy : Json → Bool
  | Json.null => false
  | Json.bool b => b
  | Json.num n => n != 0
  | Json.str s => s != ""
  | Json.arr xs => !xs.isEmpty
  | Json.obj fs => !fs.isEmpty

/-- Whether j is an object carrying the given field name (used to state what
shape the health payload has). -/
def hasField : Json → String → Bool
  | Json.obj fs, k => (jlookup fs k).isSome
  | _, _ => false

/-- Python list membership needle in hay for characters of strings. -/
def listHasPre : List Char → List Char → Bool
  | [], _ => true
  | _ :: _, [] => false
  | a :: as, b :: bs => a = b && listHasPre as bs

def listContainsSub (needle : List Char) : List Char → Bool
  | [] => listHasPre needle []
  | c :: cs => listHasPre needle (c :: cs) || listContainsSub needle cs

/-- Python substring test: needle in hay. -/
def strContains (hay needle : String) : Bool :=
  listContainsSub needle.data hay.data

/-- Python startswith. -/
def strStartsWith (s pre : String) : Bool :=
  listHasPre pre.data s.data

/-- Python truthiness of a string: true exactly when it is nonempty. -/
def pyStrTruthy (s : String) : Bool :=
  !s.data.isEmpty

/-- Whitespace characters removed by Python str.strip (the ASCII ones;
exotic unicode spaces do not occur in the payloads under study). -/
def pyWS (c : Char) : Bool :=
  c = ' ' || c = '\t' || c = '\n' || c = '\r' || c.toNat = 11 || c.toNat = 12

/-- Python str.strip(): drop leading and trailing whitespace. -/
def pyStrip (s : String) : String :=
  String.mk (((s.data.dropWhile (fun c => pyWS c)).reverse.dropWhile (fun c => pyWS c)).reverse)

/-- Python content_type.split(";")[0]: everything before the first semicolon. -/
def splitSemiHead (s : String) : String :=
  String.mk (s.data.takeWhile (fun c => c ≠ ';'))

/-- Value of a standard base64 alphabet character, none for any other
character (CPython table_a2b_base64). -/
def b64val (c : Char) : Option Nat :=
  if 'A' ≤ c ∧ c ≤ 'Z' then some (c.toNat - 65)
  else if 'a' ≤ c ∧ c ≤ 'z' then some (c.toNat - 97 + 26)
  else if '0' ≤ c ∧ c ≤ '9' then some (c.toNat - 48 + 52)
  else if c = '+' then some 62
  else if c = '/' then some 63
  else none

/-- Core loop of CPython binascii.a2b_base64 in non-strict mode (the mode
base64.b64decode uses): characters outside the alphabet are skipped, '='
closes a quad once at least two data characters were seen, a completed pad
sequence ends decoding at once (goto done in the C source, discarding any
remaining characters), and a dangling partial quad at the end is an error
(Incorrect padding).  Arguments are the remaining characters, the quad
position, the leftover bits and the count of padding characters seen in the
current quad; a '=' outside a quad is skipped without touching the pad
count, and an alphabet character resets it, exactly as the C loop does. -/
def b64loop : List Char → Nat → Nat → Nat → Option (List Nat)
  | [], 0, _, _ => some []
  | [], _ + 1, _, _ => none
  | c :: cs, qp, lc, pads =>
    if c = '=' then
      if 2 ≤ qp then
        if 4 ≤ qp + (pads + 1) then some []
        else b64loop cs qp lc (pads + 1)
      else b64loop cs qp lc pads
    else
      match b64val c with
      | none => b64loop cs qp lc pads
      | some v =>
        match qp with
        | 0 => b64loop cs 1 v 0
        | 1 => (b64loop cs 2 (v % 16) 0).map (fun out => (lc * 4 + v / 16) :: out)
        | 2 => (b64loop cs 3 (v % 4) 0).map (fun out => (lc * 16 + v / 4) :: out)
        | _ => (b64loop cs 0 0 0).map (fun out => (lc * 64 + v) :: out)

/-- Python base64.b64decode on a str argument: the whole string (including
anything after a pad sequence) must be pure ASCII, since .encode of ascii
runs before any decoding and raises otherwise; then binascii.a2b_base64 runs
in non-strict mode.  none models the raised exception. -/
def b64decode (s : String) : Option (List Nat) :=
  if s.data.all (fun c => c.toNat < 128) then b64loop s.data 0 0 0 else none

/-- Python fmt in a pair of the strings mp3 and mpeg (source line 209 / 228);
a non-string format value never equals either string. -/
def isMp3Fmt : Json → Bool
  | Json.str s => s == "mp3" || s == "mpeg"
  | _ => false

/-- Mime type guessed from the requested format (source lines 209 and 228). -/
def guessMime (fmt : Json) : String :=
  if isMp3Fmt fmt then "audio/mpeg" else "audio/wav"

/-- Provider HTTP response as observed through the httpx response object.
contentType is the Content-Type header with the empty string for absent
(httpx header lookup is case insensitive, so the two lookups in the source
agree); content is resp.content, text is resp.text, and json is the local
variable j after the try/except around resp.json() (none when parsing
raised). -/
structure Response where
  status : Nat
  contentType : String
  content : List Nat
  text : String
  json : Option Json

/-- Outcome of the primary POST to the provider: either a response object or
an httpx.RequestError with its message. -/
inductive PrimaryResult where
  | response (r : Response)
  | requestError (msg : String)

/-- Outcome of a secondary GET, as observed through httpx: a status code and
body, or a network error with its message. -/
inductive FetchResult where
  | response (status : Nat) (body : List Nat)
  | netError (msg : String)

/-- Process environment and network oracle for one request: the configured
credential (none models an unset environment variable, and the empty string
is also falsy in the source check), the provider reply to the primary POST,
and the reply to a secondary GET per URL. -/
structure Env where
  apiKey : Option String
  primary : PrimaryResult
  fetch : String → FetchResult

/-- Python "if not ORATOR_API_KEY" (source line 167): true when the
credential is unset or the empty string. -/
def apiKeyFalsy : Option String → Bool
  | none => true
  | some s => s == ""

/-- Detail payload of a FastAPI HTTPException in the source: either a plain
message string or the dict carrying the provider status code and body text
(source line 240). -/
inductive ErrDetail where
  | msg (s : String)
  | providerInfo (status : Nat) (text : String)

/-- Result of call_orator_tts_bytes: the returned pair of bytes and mime
type, or a raised HTTPException with status code and detail. -/
inductive Outcome where
  | ok (bytes : List Nat) (mime : String)
  | httpError (code : Nat) (detail : ErrDetail)

/-- One outbound network call: the primary POST with its JSON payload, or a
secondary GET to a URL. -/
inductive NetCall where
  | post (payload : Json)
  | get (url : String)

/-- Number of secondary GET calls in a trace. -/
def countGets : List NetCall → Nat
  | [] => 0
  | NetCall.get _ :: rest => countGets rest + 1
  | _ :: rest => countGets rest

/-- JSON body of the primary POST (source lines 176-180). -/
def requestPayload (text voice fmt : Json) : Json :=
  Json.obj [("text", text), ("voice", voice), ("format", fmt)]

/-- Message text of str(e) for an httpx HTTPStatusError raised by
raise_for_status on a non-2xx secondary response. -/
def statusErrText (st : Nat) : String :=
  "HTTP status error " ++ toString st

/-- fetch_binary_url (source lines 148-155): GET the URL, raise_for_status
(httpx raises for every non-2xx status), return the body; any exception is
converted to HTTPException 502 with the message prefix of line 155.  The
error side carries the full detail string of that HTTPException. -/
def fetch_binary_url (fr : FetchResult) : Except String (List Nat) :=
  match fr with
  | FetchResult.response st body =>
    if 200 ≤ st ∧ st < 300 then Except.ok body
    else Except.error ("Failed to fetch audio URL: " ++ statusErrText st)
  | FetchResult.netError e =>
    Except.error ("Failed to fetch audio URL: " ++ e)

/-- Condition of the direct-binary-audio branch (source line 190): status
200, a nonempty Content-Type containing audio or octet-stream. -/
def directAudio (resp : Response) : Bool :=
  decide (resp.status = 200) && pyStrTruthy resp.contentType &&
    (strContains resp.contentType "audio" || strContains resp.contentType "octet-stream")

/-- Condition guarding the JSON examination (source line 195): declared JSON
content type, or a nonempty body whose stripped text starts with a brace or
bracket. -/
def looksLikeJson (resp : Response) : Bool :=
  strContains resp.contentType "application/json" ||
    (pyStrTruthy resp.text &&
      (strStartsWith (pyStrip resp.text) "\x7b" || strStartsWith (pyStrip resp.text) "["))

/-- Scan of candidate base64 field names (source lines 203-212 and 224-231):
for each key in order, if present with a string value try to decode it;
a decode failure falls through to the next key. -/
def b64ScanKeys (fields : List (String × Json)) : List String → Option (List Nat)
  | [] => none
  | k :: ks =>
    match jlookup fields k with
    | some (Json.str s) =>
      match b64decode s with
      | some b => some b
      | none => b64ScanKeys fields ks
    | _ => b64ScanKeys fields ks

/-- Scan of candidate URL field names (source lines 214-215): first key in
order whose value is a string starting with http. -/
def urlScanKeys (fields : List (String × Json)) : List String → Option String
  | [] => none
  | k :: ks =>
    match jlookup fields k with
    | some (Json.str s) =>
      if strStartsWith s "http" then some s else urlScanKeys fields ks
    | _ => urlScanKeys fields ks

/-- Nested fallback of source lines 221-231: j.get of data, and when it is a
dict, the base64 scan over audio and audio_base64 against it. -/
def nestedDataScan (fields : List (String × Json)) : Option (List Nat) :=
  match jlookup fields "data" with
  | some (Json.obj dfields) => b64ScanKeys dfields ["audio", "audio_base64"]
  | _ => none

/-- Body of the JSON-object examination (source lines 201-231).  A some
result means the source returned or raised inside this region (terminal);
none means control fell through to the raw-content fallback.  The second
component is the list of secondary GET calls issued. -/
def jsonObjScan (fetch : String → FetchResult) (fmt : Json)
    (fields : List (String × Json)) : Option (Outcome × List NetCall) :=
  match b64ScanKeys fields ["audio", "audio_base64", "result", "data"] with
  | some b => some (Outcome.ok b (guessMime fmt), [])
  | none =>
    match urlScanKeys fields ["url", "audio_url", "result_url", "file"] with
    | some url =>
      match fetch_binary_url (fetch url) with
      | Except.ok body => some (Outcome.ok body "audio/mpeg", [NetCall.get url])
      | Except.error d => some (Outcome.httpError 502 (ErrDetail.msg d), [NetCall.get url])
    | none =>
      match nestedDataScan fields with
      | some b => some (Outcome.ok b (guessMime fmt), [])
      | none => none

/-- Handling of the provider response inside call_orator_tts_bytes (source
lines 188-240), given the secondary-fetch oracle. -/
def normalizeResponse (fetch : String → FetchResult) (fmt : Json)
    (resp : Response) : Outcome × List NetCall :=
  if directAudio resp then
    (Outcome.ok resp.content (splitSemiHead resp.contentType), [])
  else
    let viaJson : Option (Outcome × List NetCall) :=
      if looksLikeJson resp then
        match resp.json with
        | some (Json.obj fields) => jsonObjScan fetch fmt fields
        | _ => none
      else none
    match viaJson with
    | some r => r
    | none =>
      if resp.content.isEmpty then
        (Outcome.httpError 502 (ErrDetail.providerInfo resp.status resp.text), [])
      else
        (Outcome.ok resp.content "application/octet-stream", [])

/-- call_orator_tts_bytes (source lines 158-240): fail 500 before any network
call when the credential is falsy; otherwise POST to the provider (a
transport error becomes 502), then normalize the response.  The second
component is the trace of outbound calls. -/
def call_orator_tts_bytes (env : Env) (text voice fmt : Json) : Outcome × List NetCall :=
  if apiKeyFalsy env.apiKey then
    (Outcome.httpError 500 (ErrDetail.msg "Server is not configured with ORATOR_API_KEY"), [])
  else
    match env.primary with
    | PrimaryResult.requestError e =>
      (Outcome.httpError 502 (ErrDetail.msg ("Request to Orator failed: " ++ e)),
        [NetCall.post (requestPayload text voice fmt)])
    | PrimaryResult.response resp =>
      let r := normalizeResponse env.fetch fmt resp
      (r.1, NetCall.post (requestPayload text voice fmt) :: r.2)

/-- payload.get of text when the payload is a dict, None otherwise
(source line 250). -/
def textField : Json → Option Json
  | Json.obj fs => jlookup fs "text"
  | _ => none

/-- payload.get of voice with default urdu (source line 251). -/
def voiceField : Json → Json
  | Json.obj fs => (jlookup fs "voice").getD (Json.str "urdu")
  | _ => Json.str "urdu"

/-- payload.get of format with default mp3 (source line 252). -/
def formatField : Json → Json
  | Json.obj fs => (jlookup fs "format").getD (Json.str "mp3")
  | _ => Json.str "mp3"

/-- Result of the synthesize endpoint: a 400 JSONResponse, a 200 streaming
audio response, or a propagated HTTPException. -/
inductive ApiResult where
  | badRequest (detail : String)
  | audio (bytes : List Nat) (mime : String)
  | httpError (code : Nat) (detail : ErrDetail)

/-- api_synthesize (source lines 243-261): 400 when the text value is falsy
or missing, otherwise delegate to call_orator_tts_bytes and stream its
bytes; a raised HTTPException propagates. -/
def api_synthesize (env : Env) (payload : Json) : ApiResult × List NetCall :=
  match textField payload with
  | none => (ApiResult.badRequest "text is required", [])
  | some t =>
    if jsonTruthy t then
      match call_orator_tts_bytes env t (voiceField payload) (formatField payload) with
      | (Outcome.ok b m, calls) => (ApiResult.audio b m, calls)
      | (Outcome.httpError c d, calls) => (ApiResult.httpError c d, calls)
    else (ApiResult.badRequest "text is required", [])

/-- health (source lines 265-268): the returned JSON object. -/
def health (apiKey : Option String) : Json :=
  let ok := !apiKeyFalsy apiKey
  Json.obj [("status", Json.str (if ok then "ok" else "missing_api_key")),
            ("orator_configured", Json.bool ok)]

/-! Concrete fixtures used to witness the theorems below on closed inputs. -/

/-- Secondary-fetch oracle for scenarios where no secondary GET happens. -/
def fetchUnused : String → FetchResult :=
  fun _ => FetchResult.netError "connection refused"

/-- JSON object whose audio field fails base64 decoding (a dangling single
character) while result decodes to the bytes of abc. -/
def fieldsB64 : List (String × Json) :=
  [("audio", Json.str "A"), ("result", Json.str "YWJj")]

/-- Provider JSON response carrying fieldsB64. -/
def respB64 : Response :=
  ⟨200, "application/json", [123, 125], "{}", some (Json.obj fieldsB64)⟩

def envB64 : Env := ⟨some "secret", PrimaryResult.response respB64, fetchUnused⟩

/-- JSON object whose url field is not an http URL while result_url is. -/
def fieldsUrl : List (String × Json) :=
  [("url", Json.str "gs://bucket/a.mp3"), ("result_url", Json.str "http://example/audio.mp3")]

/-- Provider JSON response carrying fieldsUrl. -/
def respUrl : Response :=
  ⟨200, "application/json", [123, 125], "{}", some (Json.obj fieldsUrl)⟩

/-- Secondary fetch answering 200 with two bytes. -/
def fetchOk : String → FetchResult :=
  fun _ => FetchResult.response 200 [9, 9]

/-- Secondary fetch answering 404. -/
def fetch404 : String → FetchResult :=
  fun _ => FetchResult.response 404 [110]

def envUrlOk : Env := ⟨some "secret", PrimaryResult.response respUrl, fetchOk⟩

def envUrl404 : Env := ⟨some "secret", PrimaryResult.response respUrl, fetch404⟩

/-- Provider response with a direct audio content type carrying a parameter
suffix. -/
def respAudio : Response :=
  ⟨200, "audio/mpeg; charset=utf-8", [5, 6, 7], "", none⟩

def envAudio : Env := ⟨some "secret", PrimaryResult.response respAudio, fetchUnused⟩

/-- JSON object with audio only nested under data. -/
def fieldsNested : List (String × Json) :=
  [("data", Json.obj [("audio", Json.str "YWJj")])]

/-- Provider JSON response carrying fieldsNested. -/
def respNested : Response :=
  ⟨200, "application/json", [123, 125], "{}", some (Json.obj fieldsNested)⟩

def envNested : Env := ⟨some "secret", PrimaryResult.response respNested, fetchUnused⟩

/-- Provider response with status 200, a non-audio content type, a body whose
stripped text opens a brace yet fails JSON parsing, and nonempty bytes. -/
def respRawFallback : Response :=
  ⟨200, "text/html", [32, 123, 111], " \x7bo", none⟩

def envRawFallback : Env := ⟨some "secret", PrimaryResult.response respRawFallback, fetchUnused⟩

/-- Provider response with an empty body and an error status. -/
def respEmpty : Response :=
  ⟨503, "text/plain", [], "", none⟩

def envEmpty : Env := ⟨some "secret", PrimaryResult.response respEmpty, fetchUnused⟩

/-- Provider error response: status 503, plain-text nonempty body matching no
audio, base64 or URL shape. -/
def respProviderErr : Response :=
  ⟨503, "text/plain", [60, 104], "<h", none⟩

def envProviderErr : Env := ⟨some "secret", PrimaryResult.response respProviderErr, fetchUnused⟩

/-- Environment for front-door scenarios in which no network call occurs. -/
def envIdle : Env :=
  ⟨some "secret", PrimaryResult.requestError "never sent", fetchUnused⟩

/-- Environment with no credential configured. -/
def envNoKey : Env :=
  ⟨none, PrimaryResult.response respAudio, fetchOk⟩

/-- JSON object whose audio field holds a base64 payload with a completed pad
quad followed by further characters; CPython stops decoding at the pad quad
and yields the single byte 97. -/
def fieldsPad : List (String × Json) :=
  [("audio", Json.str "YQ==YQ==")]

/-- Provider JSON response carrying fieldsPad. -/
def respPad : Response :=
  ⟨200, "application/json", [123, 125], "{}", some (Json.obj fieldsPad)⟩

def envPad : Env := ⟨some "secret", PrimaryResult.response respPad, fetchUnused⟩

/-! Helper lemmas shared by the claim theorems. -/

theorem listContainsSub_nil_of_ne {needle : List Char} (h : needle ≠ []) :
    listContainsSub needle [] = false := by
  cases needle with
  | nil => exact absurd rfl h
  | cons a as => rfl

theorem pyStrTruthy_of_strContains {s pat : String} (hp : pat.data ≠ [])
    (h : strContains s pat = true) : pyStrTruthy s = true := by
  unfold strContains at h
  unfold pyStrTruthy
  cases hd : s.data with
  | nil => rw [hd] at h; rw [listContainsSub_nil_of_ne hp] at h; exact absurd h (by simp)
  | cons c cs => rfl

theorem isEmpty_false_of_ne_nil {l : List Nat} (h : l ≠ []) : l.isEmpty = false := by
  cases l with
  | nil => exact absurd rfl h
  | cons a as => rfl

theorem call_orator_response (env : Env) (resp : Response) (text voice fmt : Json)
    (hkey : apiKeyFalsy env.apiKey = false)
    (hprim : env.primary = PrimaryResult.response resp) :
    call_orator_tts_bytes env text voice fmt =
      ((normalizeResponse env.fetch fmt resp).1,
        NetCall.post (requestPayload text voice fmt) :: (normalizeResponse env.fetch fmt resp).2) := by
  simp [call_orator_tts_bytes, hkey, hprim]

theorem normalizeResponse_obj (fetch : String → FetchResult) (fmt : Json)
    (resp : Response) (fields : List (String × Json))
    (hbin : directAudio resp = false)
    (hlj : looksLikeJson resp = true)
    (hobj : resp.json = some (Json.obj fields)) :
    normalizeResponse fetch fmt resp =
      (match jsonObjScan fetch fmt fields with
       | some r => r
       | none =>
         if resp.content.isEmpty then
           (Outcome.httpError 502 (ErrDetail.providerInfo resp.status resp.text), [])
         else (Outcome.ok resp.content "application/octet-stream", [])) := by
  simp [normalizeResponse, hbin, hlj, hobj]

theorem normalizeResponse_noMatch (fetch : String → FetchResult) (fmt : Json)
    (resp : Response)
    (hbin : directAudio resp = false)
    (h : ∀ fields, looksLikeJson resp = true → resp.json = some (Json.obj fields) →
      b64ScanKeys fields ["audio", "audio_base64", "result", "data"] = none ∧
      urlScanKeys fields ["url", "audio_url", "result_url", "file"] = none ∧
      nestedDataScan fields = none) :
    normalizeResponse fetch fmt resp =
      (if resp.content.isEmpty then
        (Outcome.httpError 502 (ErrDetail.providerInfo resp.status resp.text), [])
      else (Outcome.ok resp.content "application/octet-stream", [])) := by
  unfold normalizeResponse
  rw [hbin]
  simp only [Bool.false_eq_true, if_false]
  cases hlj : looksLikeJson resp with
  | false => simp
  | true =>
    cases hj : resp.json with
    | none => simp
    | some j =>
      cases j with
      | obj fields =>
        obtain ⟨hb, hu, hn⟩ := h fields hlj hj
        simp [jsonObjScan, hb, hu, hn]
      | null => simp
      | bool b => simp
      | num n => simp
      | str s => simp
      | arr xs => simp

/-! Claim theorems. -/

/-- C1: for every provider response that is a JSON object and was not matched
as direct binary audio, the normalizer scans the field names audio,
audio_base64, result, data in that fixed order for a string value, attempts
base64 decoding of each, and returns the first successfully decoded bytes;
the mime type is audio/mpeg when the request format is mp3 or mpeg and
audio/wav for any other format; a base64 decode failure on one candidate
field does not abort the scan but continues to the next candidate. -/
theorem c1_base64_scan :
    (∀ (env : Env) (resp : Response) (fields : List (String × Json))
        (text voice fmt : Json) (b : List Nat),
      apiKeyFalsy env.apiKey = false →
      env.primary = PrimaryResult.response resp →
      directAudio resp = false →
      looksLikeJson resp = true →
      resp.json = some (Json.obj fields) →
      b64ScanKeys fields ["audio", "audio_base64", "result", "data"] = some b →
      (call_orator_tts_bytes env text voice fmt).1 = Outcome.ok b (guessMime fmt)) ∧
    guessMime (Json.str "mp3") = "audio/mpeg" ∧
    guessMime (Json.str "mpeg") = "audio/mpeg" ∧
    (∀ s : String, s ≠ "mp3" → s ≠ "mpeg" → guessMime (Json.str s) = "audio/wav") ∧
    (∀ (fields : List (String × Json)) (k : String) (ks : List String) (s : String),
      jlookup fields k = some (Json.str s) → b64decode s = none →
      b64ScanKeys fields (k :: ks) = b64ScanKeys fields ks) := by
  refine ⟨?_, rfl, rfl, ?_, ?_⟩
  · intro env resp fields text voice fmt b hkey hprim hbin hlj hobj hscan
    rw [call_orator_response env resp text voice fmt hkey hprim]
    rw [normalizeResponse_obj env.fetch fmt resp fields hbin hlj hobj]
    simp [jsonObjScan, hscan]
  · intro s h1 h2
    simp [guessMime, isMp3Fmt, h1, h2]
  · intro fields k ks s hk hdec
    simp [b64ScanKeys, hk, hdec]

/-- Witness for C1 on a concrete response whose audio field fails to decode
while result decodes to the bytes of abc, and on a response whose audio
field carries data after a completed pad quad, where decoding stops at the
pad quad as CPython does and yields the single byte 97. -/
theorem c1_base64_scan_witness :
    (call_orator_tts_bytes envB64 (Json.str "hello") (Json.str "urdu") (Json.str "mp3")).1 =
      Outcome.ok [97, 98, 99] "audio/mpeg" ∧
    (call_orator_tts_bytes envPad (Json.str "hello") (Json.str "urdu") (Json.str "mp3")).1 =
      Outcome.ok [97] "audio/mpeg" ∧
    guessMime (Json.str "flac") = "audio/wav" ∧
    b64ScanKeys fieldsB64 ["audio", "audio_base64", "result", "data"] =
      b64ScanKeys fieldsB64 ["audio_base64", "result", "data"] := by
  refine ⟨?_, ?_, ?_, ?_⟩
  · exact c1_base64_scan.1 envB64 respB64 fieldsB64 (Json.str "hello") (Json.str "urdu")
      (Json.str "mp3") [97, 98, 99] rfl rfl (by decide) (by decide) rfl (by decide)
  · exact c1_base64_scan.1 envPad respPad fieldsPad (Json.str "hello") (Json.str "urdu")
      (Json.str "mp3") [97] rfl rfl (by decide) (by decide) rfl (by decide)
  · exact c1_base64_scan.2.2.2.1 "flac" (by decide) (by decide)
  · exact c1_base64_scan.2.2.2.2 fieldsB64 "audio" ["audio_base64", "result", "data"] "A"
      rfl (by decide)

/-- C2: if no base64 field matched, the normalizer scans url, audio_url,
result_url, file in that fixed order for a string value beginning with http;
on the first match it issues exactly one secondary GET to that URL and
returns the body of a 2xx reply with mime audio/mpeg; a non-2xx status or a
network error on that single fetch makes the whole request fail with 502 and
no further scanning happens (the trace holds exactly the primary POST and
that one GET in every case). -/
theorem c2_url_fetch :
    ∀ (env : Env) (resp : Response) (fields : List (String × Json))
      (text voice fmt : Json) (url : String),
      apiKeyFalsy env.apiKey = false →
      env.primary = PrimaryResult.response resp →
      directAudio resp = false →
      looksLikeJson resp = true →
      resp.json = some (Json.obj fields) →
      b64ScanKeys fields ["audio", "audio_base64", "result", "data"] = none →
      urlScanKeys fields ["url", "audio_url", "result_url", "file"] = some url →
      ((∀ st body, env.fetch url = FetchResult.response st body → 200 ≤ st → st < 300 →
          call_orator_tts_bytes env text voice fmt =
            (Outcome.ok body "audio/mpeg",
              [NetCall.post (requestPayload text voice fmt), NetCall.get url])) ∧
        (∀ st body, env.fetch url = FetchResult.response st body → ¬(200 ≤ st ∧ st < 300) →
          ∃ d, call_orator_tts_bytes env text voice fmt =
            (Outcome.httpError 502 (ErrDetail.msg d),
              [NetCall.post (requestPayload text voice fmt), NetCall.get url])) ∧
        (∀ e, env.fetch url = FetchResult.netError e →
          ∃ d, call_orator_tts_bytes env text voice fmt =
            (Outcome.httpError 502 (ErrDetail.msg d),
              [NetCall.post (requestPayload text voice fmt), NetCall.get url])) ∧
        countGets (call_orator_tts_bytes env text voice fmt).2 = 1) := by
  intro env resp fields text voice fmt url hkey hprim hbin hlj hobj hb64 hurl
  have hcall := call_orator_response env resp text voice fmt hkey hprim
  have hnorm := normalizeResponse_obj env.fetch fmt resp fields hbin hlj hobj
  refine ⟨?_, ?_, ?_, ?_⟩
  · intro st body hf h200 h300
    rw [hcall, hnorm]
    simp [jsonObjScan, hb64, hurl, hf, fetch_binary_url, h200, h300]
  · intro st body hf hbad
    rw [hcall, hnorm]
    refine ⟨"Failed to fetch audio URL: " ++ statusErrText st, ?_⟩
    simp [jsonObjScan, hb64, hurl, hf, fetch_binary_url, hbad]
  · intro e hf
    rw [hcall, hnorm]
    refine ⟨"Failed to fetch audio URL: " ++ e, ?_⟩
    simp [jsonObjScan, hb64, hurl, hf, fetch_binary_url]
  · rw [hcall, hnorm]
    cases hf : env.fetch url with
    | response st body =>
      by_cases h2 : 200 ≤ st ∧ st < 300
      · simp [jsonObjScan, hb64, hurl, hf, fetch_binary_url, h2, countGets]
      · simp [jsonObjScan, hb64, hurl, hf, fetch_binary_url, h2, countGets]
    | netError e =>
      simp [jsonObjScan, hb64, hurl, hf, fetch_binary_url, countGets]

/-- Witness for C2: the url field does not start with http, so the scan picks
result_url; one environment answers the GET with 200 and two bytes, the
other with 404. -/
theorem c2_url_fetch_witness :
    call_orator_tts_bytes envUrlOk (Json.str "t") (Json.str "urdu") (Json.str "mp3") =
      (Outcome.ok [9, 9] "audio/mpeg",
        [NetCall.post (requestPayload (Json.str "t") (Json.str "urdu") (Json.str "mp3")),
          NetCall.get "http://example/audio.mp3"]) ∧
    (∃ d, call_orator_tts_bytes envUrl404 (Json.str "t") (Json.str "urdu") (Json.str "mp3") =
      (Outcome.httpError 502 (ErrDetail.msg d),
        [NetCall.post (requestPayload (Json.str "t") (Json.str "urdu") (Json.str "mp3")),
          NetCall.get "http://example/audio.mp3"])) ∧
    countGets (call_orator_tts_bytes envUrlOk (Json.str "t") (Json.str "urdu") (Json.str "mp3")).2 = 1 := by
  refine ⟨?_, ?_, ?_⟩
  · exact (c2_url_fetch envUrlOk respUrl fieldsUrl (Json.str "t") (Json.str "urdu")
      (Json.str "mp3") "http://example/audio.mp3" rfl rfl (by decide) (by decide) rfl
      (by decide) (by decide)).1 200 [9, 9] rfl (by decide) (by decide)
  · exact (c2_url_fetch envUrl404 respUrl fieldsUrl (Json.str "t") (Json.str "urdu")
      (Json.str "mp3") "http://example/audio.mp3" rfl rfl (by decide) (by decide) rfl
      (by decide) (by decide)).2.1 404 [110] rfl (by decide)
  · exact (c2_url_fetch envUrlOk respUrl fieldsUrl (Json.str "t") (Json.str "urdu")
      (Json.str "mp3") "http://example/audio.mp3" rfl rfl (by decide) (by decide) rfl
      (by decide) (by decide)).2.2.2

/-- C3 counterexample: the health payload has no field named configured; the
boolean field of the returned object is named orator_configured instead, so
the claimed response shape with a configured field is not what the code
returns. -/
theorem c3_health_counterexample :
    hasField (health none) "configured" = false ∧
    health none ≠ Json.obj [("status", Json.str "missing_api_key"),
      ("configured", Json.bool false)] := by
  constructor
  · rfl
  · intro h
    simp [health, apiKeyFalsy] at h

/-- C3 (amended): GET health always succeeds and returns the JSON object with
fields status and orator_configured whose values depend solely on whether a
provider credential is present: status is missing_api_key and
orator_configured is false exactly when no credential is set, and status is
ok and orator_configured is true otherwise. -/
theorem c3_health_amended (key : Option String) :
    health key = Json.obj
      [("status", Json.str (if apiKeyFalsy key then "missing_api_key" else "ok")),
        ("orator_configured", Json.bool (!apiKeyFalsy key))] ∧
    (apiKeyFalsy key = true ↔
      health key = Json.obj [("status", Json.str "missing_api_key"),
        ("orator_configured", Json.bool false)]) := by
  cases h : apiKeyFalsy key with
  | false =>
    constructor
    · simp [health, h]
    · constructor
      · intro hc; exact absurd hc (by simp)
      · intro hc; simp [health, h] at hc
  | true =>
    constructor
    · simp [health, h]
    · constructor
      · intro _; simp [health, h]
      · intro _; rfl

/-- Witness for C3: the amended theorem evaluated with no credential and with
a concrete credential. -/
theorem c3_health_amended_witness :
    health none = Json.obj [("status", Json.str "missing_api_key"),
      ("orator_configured", Json.bool false)] ∧
    health (some "secret") = Json.obj [("status", Json.str "ok"),
      ("orator_configured", Json.bool true)] := by
  constructor
  · exact (c3_health_amended none).2.mp rfl
  · exact (c3_health_amended (some "secret")).1

/-- C4: every provider response with status 200 whose declared content type
contains audio or octet-stream is returned as the raw response body
unchanged, with the declared content type stripped of any parameter suffix
after the semicolon as the mime type. -/
theorem c4_direct_audio :
    ∀ (env : Env) (resp : Response) (text voice fmt : Json),
      apiKeyFalsy env.apiKey = false →
      env.primary = PrimaryResult.response resp →
      resp.status = 200 →
      (strContains resp.contentType "audio" = true ∨
        strContains resp.contentType "octet-stream" = true) →
      call_orator_tts_bytes env text voice fmt =
        (Outcome.ok resp.content (splitSemiHead resp.contentType),
          [NetCall.post (requestPayload text voice fmt)]) := by
  intro env resp text voice fmt hkey hprim hst hct
  have htr : pyStrTruthy resp.contentType = true := by
    rcases hct with h | h
    · exact pyStrTruthy_of_strContains (by decide) h
    · exact pyStrTruthy_of_strContains (by decide) h
  have hda : directAudio resp = true := by
    unfold directAudio
    rcases hct with h | h <;> simp [hst, htr, h]
  rw [call_orator_response env resp text voice fmt hkey hprim]
  simp [normalizeResponse, hda]

/-- Witness for C4: a 200 response with content type audio/mpeg plus a
charset parameter comes back unchanged with the stripped mime type. -/
theorem c4_direct_audio_witness :
    call_orator_tts_bytes envAudio (Json.str "t") (Json.str "urdu") (Json.str "mp3") =
      (Outcome.ok [5, 6, 7] "audio/mpeg",
        [NetCall.post (requestPayload (Json.str "t") (Json.str "urdu") (Json.str "mp3"))]) := by
  exact c4_direct_audio envAudio respAudio (Json.str "t") (Json.str "urdu") (Json.str "mp3")
    rfl rfl rfl (Or.inl (by decide))

/-- C5: when neither a top-level base64 field nor a URL field matched, the
normalizer looks for a nested object under the field name data and repeats
the base64 scan over audio and audio_base64 against it, returning the first
successfully decoded bytes. -/
theorem c5_nested_data :
    ∀ (env : Env) (resp : Response) (fields dfields : List (String × Json))
      (text voice fmt : Json) (b : List Nat),
      apiKeyFalsy env.apiKey = false →
      env.primary = PrimaryResult.response resp →
      directAudio resp = false →
      looksLikeJson resp = true →
      resp.json = some (Json.obj fields) →
      b64ScanKeys fields ["audio", "audio_base64", "result", "data"] = none →
      urlScanKeys fields ["url", "audio_url", "result_url", "file"] = none →
      jlookup fields "data" = some (Json.obj dfields) →
      b64ScanKeys dfields ["audio", "audio_base64"] = some b →
      (call_orator_tts_bytes env text voice fmt).1 = Outcome.ok b (guessMime fmt) := by
  intro env resp fields dfields text voice fmt b hkey hprim hbin hlj hobj hb64 hurl hdata hscan
  rw [call_orator_response env resp text voice fmt hkey hprim]
  rw [normalizeResponse_obj env.fetch fmt resp fields hbin hlj hobj]
  simp [jsonObjScan, hb64, hurl, nestedDataScan, hdata, hscan]

/-- Witness for C5: a response whose only audio lives at data.audio decodes
to the bytes of abc, with mime audio/wav for format wav. -/
theorem c5_nested_data_witness :
    (call_orator_tts_bytes envNested (Json.str "t") (Json.str "urdu") (Json.str "wav")).1 =
      Outcome.ok [97, 98, 99] "audio/wav" := by
  exact c5_nested_data envNested respNested fieldsNested [("audio", Json.str "YWJj")]
    (Json.str "t") (Json.str "urdu") (Json.str "wav") [97, 98, 99]
    rfl rfl (by decide) (by decide) rfl (by decide) (by decide) rfl (by decide)

/-- C6: when no earlier normalization step produced a result and the provider
response body is nonempty, the normalizer returns that raw body verbatim
with mime type application/octet-stream. -/
theorem c6_raw_fallback :
    ∀ (env : Env) (resp : Response) (text voice fmt : Json),
      apiKeyFalsy env.apiKey = false →
      env.primary = PrimaryResult.response resp →
      directAudio resp = false →
      (∀ fields, looksLikeJson resp = true → resp.json = some (Json.obj fields) →
        b64ScanKeys fields ["audio", "audio_base64", "result", "data"] = none ∧
        urlScanKeys fields ["url", "audio_url", "result_url", "file"] = none ∧
        nestedDataScan fields = none) →
      resp.content ≠ [] →
      call_orator_tts_bytes env text voice fmt =
        (Outcome.ok resp.content "application/octet-stream",
          [NetCall.post (requestPayload text voice fmt)]) := by
  intro env resp text voice fmt hkey hprim hbin hno hcon
  rw [call_orator_response env resp text voice fmt hkey hprim]
  rw [normalizeResponse_noMatch env.fetch fmt resp hbin hno]
  simp [isEmpty_false_of_ne_nil hcon]

/-- Witness for C6: a 200 response with a non-audio content type, a body that
looks like JSON but fails to parse, and nonempty bytes is passed through
verbatim as application/octet-stream. -/
theorem c6_raw_fallback_witness :
    call_orator_tts_bytes envRawFallback (Json.str "t") (Json.str "urdu") (Json.str "mp3") =
      (Outcome.ok [32, 123, 111] "application/octet-stream",
        [NetCall.post (requestPayload (Json.str "t") (Json.str "urdu") (Json.str "mp3"))]) := by
  exact c6_raw_fallback envRawFallback respRawFallback (Json.str "t") (Json.str "urdu")
    (Json.str "mp3") rfl rfl (by decide)
    (by intro fields _ hj; exact Option.noConfusion hj) (by decide)

/-- C7: when the provider response body is empty and no normalization step
matched, the normalizer fails with HTTP 502 whose detail carries the
original provider status code and body text. -/
theorem c7_empty_body_error :
    ∀ (env : Env) (resp : Response) (text voice fmt : Json),
      apiKeyFalsy env.apiKey = false →
      env.primary = PrimaryResult.response resp →
      directAudio resp = false →
      (∀ fields, looksLikeJson resp = true → resp.json = some (Json.obj fields) →
        b64ScanKeys fields ["audio", "audio_base64", "result", "data"] = none ∧
        urlScanKeys fields ["url", "audio_url", "result_url", "file"] = none ∧
        nestedDataScan fields = none) →
      resp.content = [] →
      call_orator_tts_bytes env text voice fmt =
        (Outcome.httpError 502 (ErrDetail.providerInfo resp.status resp.text),
          [NetCall.post (requestPayload text voice fmt)]) := by
  intro env resp text voice fmt hkey hprim hbin hno hcon
  rw [call_orator_response env resp text voice fmt hkey hprim]
  rw [normalizeResponse_noMatch env.fetch fmt resp hbin hno]
  rw [hcon]
  simp

/-- Witness for C7: a 503 provider response with an empty body yields the 502
error carrying status 503 and the empty body text. -/
theorem c7_empty_body_error_witness :
    call_orator_tts_bytes envEmpty (Json.str "t") (Json.str "urdu") (Json.str "mp3") =
      (Outcome.httpError 502 (ErrDetail.providerInfo 503 ""),
        [NetCall.post (requestPayload (Json.str "t") (Json.str "urdu") (Json.str "mp3"))]) := by
  exact c7_empty_body_error envEmpty respEmpty (Json.str "t") (Json.str "urdu") (Json.str "mp3")
    rfl rfl (by decide) (by intro fields hlj _; exact absurd hlj (by decide)) rfl

/-- C8: every synthesis request whose text field is missing or empty yields
the 400 error body, the normalizer is not invoked, and no outbound network
call is made. -/
theorem c8_missing_text :
    ∀ (env : Env) (payload : Json),
      (textField payload = none ∨ textField payload = some (Json.str "")) →
      api_synthesize env payload = (ApiResult.badRequest "text is required", []) := by
  intro env payload h
  rcases h with h | h
  · simp [api_synthesize, h]
  · simp [api_synthesize, h, jsonTruthy]

/-- Witness for C8: a payload without text and a payload with empty text both
return the 400 result with an empty call trace. -/
theorem c8_missing_text_witness :
    api_synthesize envIdle (Json.obj [("voice", Json.str "urdu")]) =
      (ApiResult.badRequest "text is required", []) ∧
    api_synthesize envIdle (Json.obj [("text", Json.str "")]) =
      (ApiResult.badRequest "text is required", []) := by
  constructor
  · exact c8_missing_text envIdle (Json.obj [("voice", Json.str "urdu")]) (Or.inl rfl)
  · exact c8_missing_text envIdle (Json.obj [("text", Json.str "")]) (Or.inr rfl)

/-- C9: with no provider credential configured, every normalizer invocation
fails immediately with the HTTP 500 configuration error and an empty network
call trace. -/
theorem c9_no_credential :
    ∀ (env : Env) (text voice fmt : Json),
      apiKeyFalsy env.apiKey = true →
      call_orator_tts_bytes env text voice fmt =
        (Outcome.httpError 500 (ErrDetail.msg "Server is not configured with ORATOR_API_KEY"),
          []) := by
  intro env text voice fmt h
  simp [call_orator_tts_bytes, h]

/-- Witness for C9: the unconfigured environment fails with 500 and makes no
network call. -/
theorem c9_no_credential_witness :
    call_orator_tts_bytes envNoKey (Json.str "t") (Json.str "urdu") (Json.str "mp3") =
      (Outcome.httpError 500 (ErrDetail.msg "Server is not configured with ORATOR_API_KEY"),
        []) := by
  exact c9_no_credential envNoKey (Json.str "t") (Json.str "urdu") (Json.str "mp3") rfl

/-- C10: for every provider response with a nonempty body the normalizer
returns a success unless a matched secondary URL fetch fails (the provider
error branch is reachable only with an empty body); in particular a provider
response with an error status and a nonempty body matching no audio, base64
or URL shape is delivered to the client as a 200 success with mime
application/octet-stream. -/
theorem c10_nonempty_body_success :
    (∀ (env : Env) (resp : Response) (text voice fmt : Json),
      apiKeyFalsy env.apiKey = false →
      env.primary = PrimaryResult.response resp →
      resp.content ≠ [] →
      ((∃ b m, (call_orator_tts_bytes env text voice fmt).1 = Outcome.ok b m) ∨
        (∃ fields url d, looksLikeJson resp = true ∧ resp.json = some (Json.obj fields) ∧
          b64ScanKeys fields ["audio", "audio_base64", "result", "data"] = none ∧
          urlScanKeys fields ["url", "audio_url", "result_url", "file"] = some url ∧
          fetch_binary_url (env.fetch url) = Except.error d ∧
          (call_orator_tts_bytes env text voice fmt).1 =
            Outcome.httpError 502 (ErrDetail.msg d)))) ∧
    (∀ (env : Env) (resp : Response) (payload t : Json),
      apiKeyFalsy env.apiKey = false →
      env.primary = PrimaryResult.response resp →
      textField payload = some t →
      jsonTruthy t = true →
      400 ≤ resp.status →
      resp.content ≠ [] →
      (∀ fields, looksLikeJson resp = true → resp.json = some (Json.obj fields) →
        b64ScanKeys fields ["audio", "audio_base64", "result", "data"] = none ∧
        urlScanKeys fields ["url", "audio_url", "result_url", "file"] = none ∧
        nestedDataScan fields = none) →
      (api_synthesize env payload).1 =
        ApiResult.audio resp.content "application/octet-stream") := by
  constructor
  · intro env resp text voice fmt hkey hprim hcon
    by_cases hda : directAudio resp = true
    · left
      refine ⟨resp.content, splitSemiHead resp.contentType, ?_⟩
      rw [call_orator_response env resp text voice fmt hkey hprim]
      simp [normalizeResponse, hda]
    · have hda' : directAudio resp = false := by
        cases h : directAudio resp with
        | false => rfl
        | true => exact absurd h hda
      cases hlj : looksLikeJson resp with
      | false =>
        left
        refine ⟨resp.content, "application/octet-stream", ?_⟩
        rw [call_orator_response env resp text voice fmt hkey hprim]
        rw [normalizeResponse_noMatch env.fetch fmt resp hda'
          (by intro fs hlj' _; rw [hlj] at hlj'; exact absurd hlj' (by simp))]
        simp [isEmpty_false_of_ne_nil hcon]
      | true =>
        by_cases hobj : ∃ fields, resp.json = some (Json.obj fields)
        · obtain ⟨fields, hj⟩ := hobj
          cases hb : b64ScanKeys fields ["audio", "audio_base64", "result", "data"] with
          | some b =>
            left
            refine ⟨b, guessMime fmt, ?_⟩
            rw [call_orator_response env resp text voice fmt hkey hprim]
            rw [normalizeResponse_obj env.fetch fmt resp fields hda' hlj hj]
            simp [jsonObjScan, hb]
          | none =>
            cases hu : urlScanKeys fields ["url", "audio_url", "result_url", "file"] with
            | some url =>
              cases hfr : fetch_binary_url (env.fetch url) with
              | ok body =>
                left
                refine ⟨body, "audio/mpeg", ?_⟩
                rw [call_orator_response env resp text voice fmt hkey hprim]
                rw [normalizeResponse_obj env.fetch fmt resp fields hda' hlj hj]
                simp [jsonObjScan, hb, hu, hfr]
              | error d =>
                right
                refine ⟨fields, url, d, rfl, hj, hb, hu, hfr, ?_⟩
                rw [call_orator_response env resp text voice fmt hkey hprim]
                rw [normalizeResponse_obj env.fetch fmt resp fields hda' hlj hj]
                simp [jsonObjScan, hb, hu, hfr]
            | none =>
              cases hn : nestedDataScan fields with
              | some b =>
                left
                refine ⟨b, guessMime fmt, ?_⟩
                rw [call_orator_response env resp text voice fmt hkey hprim]
                rw [normalizeResponse_obj env.fetch fmt resp fields hda' hlj hj]
                simp [jsonObjScan, hb, hu, hn]
              | none =>
                left
                refine ⟨resp.content, "application/octet-stream", ?_⟩
                rw [call_orator_response env resp text voice fmt hkey hprim]
                rw [normalizeResponse_noMatch env.fetch fmt resp hda'
                  (by
                    intro fs _ hj'
                    rw [hj] at hj'
                    have h1 := Option.some.inj hj'
                    injection h1 with h2
                    subst h2
                    exact ⟨hb, hu, hn⟩)]
                simp [isEmpty_false_of_ne_nil hcon]
        · left
          refine ⟨resp.content, "application/octet-stream", ?_⟩
          rw [call_orator_response env resp text voice fmt hkey hprim]
          rw [normalizeResponse_noMatch env.fetch fmt resp hda'
            (by intro fs _ hj'; exact absurd ⟨fs, hj'⟩ hobj)]
          simp [isEmpty_false_of_ne_nil hcon]
  · intro env resp payload t hkey hprim htf htr hst hcon hno
    have h200 : ¬(resp.status = 200) := by omega
    have hda : directAudio resp = false := by
      simp [directAudio, decide_eq_false h200]
    have hcall : call_orator_tts_bytes env t (voiceField payload) (formatField payload) =
        (Outcome.ok resp.content "application/octet-stream",
          [NetCall.post (requestPayload t (voiceField payload) (formatField payload))]) := by
      rw [call_orator_response env resp t (voiceField payload) (formatField payload) hkey hprim]
      rw [normalizeResponse_noMatch env.fetch (formatField payload) resp hda hno]
      simp [isEmpty_false_of_ne_nil hcon]
    simp [api_synthesize, htf, htr, hcall]

/-- Witness for C10: a 503 text/plain provider response with nonempty body is
delivered to the client as a 200 audio result with octet-stream mime. -/
theorem c10_nonempty_body_success_witness :
    (api_synthesize envProviderErr (Json.obj [("text", Json.str "salam")])).1 =
      ApiResult.audio [60, 104] "application/octet-stream" := by
  exact c10_nonempty_body_success.2 envProviderErr respProviderErr
    (Json.obj [("text", Json.str "salam")]) (Json.str "salam")
    rfl rfl rfl (by decide) (by decide) (by decide)
    (by intro fs hlj _; exact absurd hlj (by decide))
